import Mathlib

/-!
Verification of the SkyRoute-Agents inquiry routing and conversational
context resolution engine.

The development shallowly embeds the Python sources:
  - `src/agents/inquiry_router.py`   (class InquiryRouterAgent)
  - `src/agents/flight_analytics_agent.py` (class FlightAnalyticsAgent)
  - `src/agents/flight_status_agent.py` and `src/main.py` (collaborator wiring)

Python strings are modelled as `List Char` (the sources only exercise the
ASCII fragment of Python's `re` module, so `\w` is `isAlphanum || '_'`).
Each regular expression used by the sources is anchored on both sides by a
word boundary `\b`, so its matches coincide with whole maximal runs of word
characters; the embedding therefore segments the input into maximal word /
non-word runs and expresses every `search` / `findall` as a scan over those
segments.  Fallible collaborators (the status provider, the analytics
provider, the optional LLM classifier) are embedded as functions returning
`Except String String`: `Except.error e` models a raised Python exception
whose `str` is `e`.  The BigQuery execution inside the analytics methods is
network I/O; it is abstracted as an explicit `bq : String` parameter holding
the formatted result of a successful warehouse call, while the pure
validation prefixes of those methods are transcribed faithfully.
-/

namespace SkyRoute

/-! ### Character and string primitives -/

/-- Python `\w` on the ASCII fragment: letters, digits and underscore. -/
def isWordChar (c : Char) : Bool := c.isAlphanum || c = '_'

/-- Python `str.upper()` on the ASCII fragment. -/
def upperL (l : List Char) : List Char := l.map Char.toUpper

/-- Python `str.lower()` on the ASCII fragment. -/
def lowerL (l : List Char) : List Char := l.map Char.toLower

/-- Python `str.strip()`: drop leading and trailing whitespace. -/
def stripL (l : List Char) : List Char :=
  ((l.dropWhile Char.isWhitespace).reverse.dropWhile Char.isWhitespace).reverse

/-- Python substring containment `needle in hay`. -/
def containsSub (needle : List Char) : List Char → Bool
  | [] => needle.isEmpty
  | c :: cs => needle.isPrefixOf (c :: cs) || containsSub needle cs

/-- Numeric value of a run of decimal digits (Python `int(...)` on a `\d+` group). -/
def digitsToNat (l : List Char) : Nat :=
  l.foldl (fun n c => 10 * n + (c.toNat - 48)) 0

/-- Numeric value of a digit run, as a Python integer. -/
def digitsToInt (l : List Char) : Int := Int.ofNat (digitsToNat l)

/-! ### Segmentation into maximal word / non-word runs

Every regex in the sources is `\b`-anchored, so its matches are exactly the
maximal word-character runs of a given shape (see the pattern lemmas in the
doc comments of the individual scanners). -/

/-- A maximal run of word characters or of non-word characters. -/
inductive Seg where
  | word (chars : List Char)
  | sep (chars : List Char)
deriving DecidableEq

/-- Fuel-indexed splitter; `fuel = l.length` always suffices because every
step consumes at least one character. -/
def segmentAux : Nat → List Char → List Seg
  | 0, _ => []
  | _ + 1, [] => []
  | fuel + 1, c :: cs =>
    if isWordChar c then
      Seg.word (c :: cs.takeWhile isWordChar) ::
        segmentAux fuel (cs.dropWhile isWordChar)
    else
      Seg.sep (c :: cs.takeWhile (fun d => !isWordChar d)) ::
        segmentAux fuel (cs.dropWhile (fun d => !isWordChar d))

/-- Split a string into its maximal word / non-word runs, in order. -/
def segment (l : List Char) : List Seg := segmentAux l.length l

/-- The maximal word-character runs of the input, in order of appearance. -/
def wordToks (l : List Char) : List (List Char) :=
  (segment l).filterMap (fun s =>
    match s with
    | Seg.word w => some w
    | Seg.sep _ => none)

/-! ### Token predicates for the `\b`-anchored patterns -/

/-- `\b[A-Z]{2}\d{2,4}\b` (inquiry_router.py line 29): a whole word token of
exactly two uppercase letters followed by two to four digits. -/
def isFlightTok : List Char → Bool
  | a :: b :: rest =>
    a.isUpper && b.isUpper && rest.all Char.isDigit &&
      decide (2 ≤ rest.length) && decide (rest.length ≤ 4)
  | _ => false

/-- `\b[A-Z]{3}\b`: a whole word token of exactly three uppercase letters. -/
def isAirportTok (t : List Char) : Bool :=
  t.length == 3 && t.all Char.isUpper

/-- `\b(19[9][0-9]|20[0-3][0-9])\b` (inquiry_router.py line 134): a whole
word token that is a four-digit year 1990-1999 or 2000-2039. -/
def isRouterYearTok : List Char → Bool
  | [a, b, c, d] =>
    a.isDigit && b.isDigit && c.isDigit && d.isDigit &&
      ((a = '1' && b = '9' && c = '9') ||
       (a = '2' && b = '0' && (c = '0' || c = '1' || c = '2' || c = '3')))
  | _ => false

/-- `\b(19|20)\d{2}\b` (flight_analytics_agent.py line 148): a whole word
token that is a four-digit number starting 19 or 20. -/
def isAgentYearTok : List Char → Bool
  | [a, b, c, d] =>
    c.isDigit && d.isDigit &&
      ((a = '1' && b = '9') || (a = '2' && b = '0'))
  | _ => false

/-! ### InquiryRouterAgent (src/agents/inquiry_router.py) -/

/-- `re.search(r'\b[A-Z]{2}\d{2,4}\b', query.upper())`: first matching whole
word token of the uppercased query (lines 29 and 69). -/
def findFlightNumber (q : List Char) : Option String :=
  ((wordToks (upperL q)).find? isFlightTok).map String.mk

/-- The keyword alternatives of the router's limit pattern (line 139). -/
def routerLimitKws : List (List Char) :=
  (["top", "limit", "first", "show"] : List String).map String.data

/-- `re.search(r'\b(?:top|limit|first|show)\s+(\d+)\b', query, re.IGNORECASE)`
(lines 139-140).  A match is a whole word token equal (case-insensitively) to
one of the keywords, followed by whitespace only, followed by a whole word
token of digits; the scan returns the leftmost such match's number. -/
def findKwNum : List Seg → Option Nat
  | Seg.word w :: Seg.sep s :: Seg.word d :: rest =>
    if routerLimitKws.contains (lowerL w) && s.all Char.isWhitespace &&
        !d.isEmpty && d.all Char.isDigit then
      some (digitsToNat d)
    else findKwNum (Seg.sep s :: Seg.word d :: rest)
  | _ :: rest => findKwNum rest
  | [] => none

/-- A whole word token of two or three uppercase letters, as matched by the
`([A-Z]{2,3})` groups of the route pattern. -/
def isAlpha23 (t : List Char) : Bool :=
  (t.length == 2 || t.length == 3) && t.all Char.isUpper

/-- `re.search(r'\bfrom\s+([A-Z]{2,3})\s+to\s+([A-Z]{2,3})\b', query_upper,
re.IGNORECASE)` (lines 154-155).  On the uppercased query a match is the
token FROM, whitespace, a 2-3 letter token, whitespace, the token TO,
whitespace, a 2-3 letter token; the scan returns the groups of the leftmost
match. -/
def routeFromTo : List Seg → Option (List Char × List Char)
  | Seg.word f :: Seg.sep s1 :: Seg.word x :: Seg.sep s2 ::
      Seg.word t :: Seg.sep s3 :: Seg.word y :: rest =>
    if f = ['F', 'R', 'O', 'M'] && s1.all Char.isWhitespace && isAlpha23 x &&
        s2.all Char.isWhitespace && t = ['T', 'O'] &&
        s3.all Char.isWhitespace && isAlpha23 y then
      some (x, y)
    else
      routeFromTo (Seg.sep s1 :: Seg.word x :: Seg.sep s2 ::
        Seg.word t :: Seg.sep s3 :: Seg.word y :: rest)
  | _ :: rest => routeFromTo rest
  | [] => none

/-- `InquiryRouterAgent._parse_analytics_query` (lines 115-170): origin,
destination, year and limit, or `none` when parsing fails.  The body never
raises, so the enclosing `try/except` is inert. -/
def parseAnalyticsQuery (q : List Char) : Option (String × String × Int × Int) :=
  let qU := upperL q
  let airports := (wordToks qU).filter isAirportTok
  let yearOpt : Option Int := ((wordToks q).find? isRouterYearTok).map digitsToInt
  let limit : Int :=
    match findKwNum (segment q) with
    | some n => min (Int.ofNat n) 50
    | none => 5
  match airports, yearOpt with
  | a :: b :: _, some y => some (String.mk a, String.mk b, y, limit)
  | _, _ =>
    match routeFromTo (segment qU), yearOpt with
    | some (x, yd), some y => some (String.mk x, String.mk yd, y, limit)
    | _, _ => none

/-! Router response strings, transcribed from inquiry_router.py. -/

/-- Response for an empty or whitespace-only query (line 53). -/
def emptyQueryMsg : String :=
  "Please provide a valid query. I can help with flight status (e.g., \x27AA123\x27) or fare analysis."

/-- Response when no flight number is found and no analytics agent is
configured (lines 90-91). -/
def analyticsUnavailableMsg : String :=
  "Analytics features are currently unavailable (BigQuery not configured).\nI can help with flight status queries. Include a flight number (e.g., \x27What\x27s the status of AA123?\x27)"

/-- Response when analytics parameters cannot be parsed (lines 111-113). -/
def analyticsHelpMsg : String :=
  "I can help with two types of queries:\n1. Flight status: Include a flight number (e.g., \x27What\x27s the status of AA123?\x27)\n2. Fare analysis: Specify route and year (e.g., \x27Cheapest fares from LAX to JFK in 2023\x27)"

/-- `_route_to_status` response when the LLM said status but no flight number
was found (line 227). -/
def statusNeedFlightMsg : String :=
  "Please include a flight number for status queries (e.g., \x27What\x27s the status of AA123?\x27)"

/-- `_route_to_analytics` response when no analytics agent is configured
(line 233). -/
def analyticsUnavailableLlmMsg : String :=
  "Analytics features are currently unavailable (BigQuery not configured). Please try a flight status query instead."

/-- `_route_to_analytics` response when parsing fails (line 251). -/
def fareHelpLlmMsg : String :=
  "For fare analysis, please specify route and year (e.g., \x27Cheapest fares from LAX to JFK in 2023\x27)"

/-- The LLM classification system prompt (line 32). -/
def llmSystemPrompt : String :=
  "You are a classifier. Reply exactly \"status\" or \"price\"."

/-- The collaborators handed to `InquiryRouterAgent.__init__`.  A provider is
a function returning `Except.ok result` or `Except.error e` for a raised
exception with message `e`; `analyticsAgent = none` models the
`analytics_agent = None` wiring of main.py when BigQuery setup fails. -/
structure RouterConfig where
  useLlm : Bool
  llmClient : Option (String → Except String String)
  statusAgent : String → Except String String
  analyticsAgent : Option (String → String → Int → Int → Except String String)

/-- `InquiryRouterAgent._classify_with_llm` (lines 172-207): builds the
prompt, calls the client, and normalises the reply; any exception and any
unexpected reply map to `none`. -/
def classifyWithLlm (llm : String → Except String String) (q : String) : Option String :=
  match llm (llmSystemPrompt ++ "\n\nUser query: " ++ q) with
  | Except.error _ => none
  | Except.ok r =>
    let rc := String.mk (lowerL (stripL r.data))
    if rc = "status" then some "status"
    else if rc = "price" then some "price"
    else none

/-- `InquiryRouterAgent._route_to_status` (lines 209-227). -/
def routeToStatus (cfg : RouterConfig) (q : String) : String :=
  match findFlightNumber q.data with
  | some fn =>
    match cfg.statusAgent fn with
    | Except.ok r => r
    | Except.error e => "Error retrieving flight status: " ++ e
  | none => statusNeedFlightMsg

/-- `InquiryRouterAgent._route_to_analytics` (lines 229-251). -/
def routeToAnalytics (cfg : RouterConfig) (q : String) : String :=
  match cfg.analyticsAgent with
  | none => analyticsUnavailableLlmMsg
  | some agent =>
    match parseAnalyticsQuery q.data with
    | some (o, d, y, l) =>
      match agent o d y l with
      | Except.ok r => r
      | Except.error e => "Error retrieving fare analytics: " ++ e
    | none => fareHelpLlmMsg

/-- The regex branch of `handle_query` (lines 68-113): flight-number search,
dispatch to the status agent, else the analytics availability gate, the
parameter parse, and dispatch to the analytics agent. -/
def regexRoute (cfg : RouterConfig) (q : String) : String :=
  match findFlightNumber q.data with
  | some fn =>
    match cfg.statusAgent fn with
    | Except.ok r => r
    | Except.error e => "Error retrieving flight status: " ++ e
  | none =>
    match cfg.analyticsAgent with
    | none => analyticsUnavailableMsg
    | some agent =>
      match parseAnalyticsQuery q.data with
      | some (o, d, y, l) =>
        match agent o d y l with
        | Except.ok r => r
        | Except.error e => "Error retrieving fare analytics: " ++ e
      | none => analyticsHelpMsg

/-- `InquiryRouterAgent.handle_query` (lines 41-113), composed with the
`__init__` adjustment of lines 34-36 (LLM routing is disabled when no client
is supplied). -/
def handleQuery (cfg : RouterConfig) (query : String) : String :=
  let qs := String.mk (stripL query.data)
  if qs = "" then emptyQueryMsg
  else
    let llmDecision : Option String :=
      match cfg.llmClient with
      | some f => if cfg.useLlm then classifyWithLlm f qs else none
      | none => none
    match llmDecision with
    | some "status" => routeToStatus cfg qs
    | some "price" => routeToAnalytics cfg qs
    | _ => regexRoute cfg qs

/-! ### FlightAnalyticsAgent (src/agents/flight_analytics_agent.py) -/

/-- The conversational memory initialised in `FlightAnalyticsAgent.__init__`
(lines 27-33); every field starts as `None`. -/
structure Memory where
  lastQueryType : Option String := none
  lastOrigin : Option String := none
  lastDestination : Option String := none
  lastYear : Option Int := none
  lastLimit : Option Int := none
deriving DecidableEq

/-- The freshly constructed memory. -/
def emptyMemory : Memory := {}

/-- A successfully parsed query dict: `type` is always present; the other
keys are present only when `_parse_query` set them. -/
structure ParsedOk where
  qtype : String
  origin : Option String := none
  destination : Option String := none
  year : Option Int := none
  limit : Option Int := none
deriving DecidableEq

/-- Result of `_parse_query`: either a dict containing only an `error` key,
or a parsed dict. -/
inductive ParseResult where
  | failure (msg : String)
  | success (p : ParsedOk)
deriving DecidableEq

/-- Python truthiness of an optional string (`None` and `""` are falsy). -/
def strTruthy : Option String → Bool
  | some s => !(s = "")
  | none => false

/-- Python truthiness of an optional integer (`None` and `0` are falsy). -/
def intTruthy : Option Int → Bool
  | some n => !(n = 0)
  | none => false

/-- The day-of-week vocabulary of `_parse_query` line 96. -/
def dayPhrases : List String :=
  ["day of week", "which day", "what day", "weekday", "monday", "tuesday",
   "wednesday", "thursday", "friday", "saturday", "sunday"]

/-- The follow-up phrases of `_parse_query` line 131. -/
def followUpPhrases : List String :=
  ["what about", "how about", "and for", "which day", "what day", "fewer delays"]

/-- The stoplist of common non-airport three-letter words (line 107),
transcribed in source order; the Python `set` literal contains duplicates,
which do not affect membership. -/
def commonWords : List (List Char) :=
  (["THE", "AND", "FOR", "ARE", "YOU", "TOP", "DAY", "HAS", "FEW", "WHO",
    "WHY", "HOW", "CAN", "GET", "SET", "RUN", "NEW", "OLD", "BIG", "BAD",
    "END", "USE", "WAY", "MAN", "SEE", "HIM", "TWO", "NOW", "ITS", "DID",
    "YES", "HIS", "HER", "SHE", "HAS", "HAD", "HIS", "HER", "HIM", "WHO",
    "OIL", "SIT", "SET", "BUT", "NOT", "ALL", "ANY", "CAN", "HAD", "HER",
    "WAS", "ONE", "OUR", "OUT", "TRY", "WAY", "WIN", "OWN", "SAY", "TOO",
    "USE", "TWO", "NEW", "NOW", "OLD", "SEE", "HIM", "ITS", "LET", "PUT",
    "END", "WHY", "TRY", "ASK", "RUN", "OWN", "SIT", "SET", "GET", "GOT",
    "HAS", "HIT", "HOT", "JOB", "LET", "LOT", "MAP", "MEN", "NET", "PET",
    "RUN", "SUN", "TEN", "VAN", "WIN", "YES", "YET", "ZOO"] : List String).map
    String.data

/-- Substring check of a fixed phrase against a (lowercased) query. -/
def hasPhrase (ql : List Char) (p : String) : Bool := containsSub p.data ql

/-- `'what about' in query_lower or 'how about' in query_lower`. -/
def whatHowAbout (ql : List Char) : Bool :=
  hasPhrase ql "what about" || hasPhrase ql "how about"

/-- Lines 103-108: `re.findall(r'\b([A-Z]{3})\b', query.upper())` filtered
against the stoplist, in order of appearance. -/
def agentAirportCodes (q : List Char) : List String :=
  ((wordToks (upperL q)).filter
    (fun t => isAirportTok t && !(commonWords.contains t))).map String.mk

/-- `re.search(r'\btop\s+(\d+)\b|\b(\d+)\s+airlines\b', query_lower)`
(line 155): the leftmost match of either alternative over the lowercased
query; returns `int(group(1) or group(2))`. -/
def agentLimitScan : List Seg → Option Int
  | Seg.word w :: Seg.sep s :: Seg.word d :: rest =>
    if w = ['t', 'o', 'p'] && s.all Char.isWhitespace && !d.isEmpty &&
        d.all Char.isDigit then
      some (digitsToInt d)
    else if !w.isEmpty && w.all Char.isDigit && s.all Char.isWhitespace &&
        d = ['a', 'i', 'r', 'l', 'i', 'n', 'e', 's'] then
      some (digitsToInt w)
    else agentLimitScan (Seg.sep s :: Seg.word d :: rest)
  | _ :: rest => agentLimitScan rest
  | [] => none

/-- Lines 147-161 of `_parse_query`: fill in `year` and `limit` on a parsed
dict that is about to be returned.  `q` is the raw query (the year regex
runs on it) and `ql` its lowercased form (the limit regex and the phrase
checks run on it).  Memory values are borrowed only when truthy and the
query contains a `what about` / `how about` phrase. -/
def finishParse (mem : Memory) (q ql : List Char) (p : ParsedOk) : ParseResult :=
  let year : Option Int :=
    match ((wordToks q).find? isAgentYearTok).map digitsToInt with
    | some y => some y
    | none =>
      if intTruthy mem.lastYear && whatHowAbout ql then mem.lastYear else none
  let limit : Option Int :=
    match agentLimitScan (segment ql) with
    | some n => some n
    | none =>
      if intTruthy mem.lastLimit && whatHowAbout ql then mem.lastLimit else none
  ParseResult.success { p with year := year, limit := limit }

/-- Error dict for one airport code without continuation context (lines 128
and 145). -/
def needBothAirportsErr : String :=
  "✈️ I need both airports to help you! Try something like \"SFO to JFK\" or \"from LAX to ORD\""

/-- Error dict for no airport codes and no usable context (line 143). -/
def needAirportsErr : String :=
  "✈️ I need to know which airports you\x27re interested in! Try \"SFO to JFK\" or \"from Miami to Seattle\""

/-- `FlightAnalyticsAgent._parse_query` (lines 87-161). -/
def parseQuery (mem : Memory) (q : List Char) : ParseResult :=
  let ql := lowerL q
  let t0 : String :=
    if dayPhrases.any (fun p => hasPhrase ql p) then "day_of_week_delays"
    else "on_time_airlines"
  match agentAirportCodes q with
  | c1 :: c2 :: _ =>
    finishParse mem q ql { qtype := t0, origin := some c1, destination := some c2 }
  | [c] =>
    if whatHowAbout ql then
      match mem.lastOrigin, mem.lastDestination with
      | some o, some d =>
        if !(o = "") && !(d = "") then
          if !(c = o) && !(c = d) then
            -- new airport: keep the previous query type, replace the origin
            let tmem : String :=
              match mem.lastQueryType with
              | some t => if t = "" then t0 else t
              | none => t0
            finishParse mem q ql
              { qtype := tmem, origin := some c, destination := some d }
          else
            finishParse mem q ql
              { qtype := t0, origin := some o, destination := some c }
        else
          -- falsy memory value: the `if` of line 116 has no else branch,
          -- so the dict is returned without origin or destination
          finishParse mem q ql { qtype := t0 }
      | _, _ => finishParse mem q ql { qtype := t0 }
    else ParseResult.failure needBothAirportsErr
  | [] =>
    if followUpPhrases.any (fun p => hasPhrase ql p) &&
        strTruthy mem.lastOrigin && strTruthy mem.lastDestination then
      match mem.lastOrigin, mem.lastDestination with
      | some o, some d =>
        let t1 : String :=
          if whatHowAbout ql && t0 = "on_time_airlines" &&
              strTruthy mem.lastQueryType then
            match mem.lastQueryType with
            | some t => t
            | none => t0
          else t0
        finishParse mem q ql { qtype := t1, origin := some o, destination := some d }
      | _, _ => ParseResult.failure needAirportsErr
    else ParseResult.failure needAirportsErr

/-- `FlightAnalyticsAgent._update_memory` (lines 163-169): every memory
field is replaced by the corresponding value of the incoming dict, absent
keys becoming `None`; the prior memory is not consulted. -/
def updateMemory (_mem : Memory) (p : ParsedOk) : Memory :=
  { lastQueryType := some p.qtype
    lastOrigin := p.origin
    lastDestination := p.destination
    lastYear := p.year
    lastLimit := p.limit }

/-! Validation messages of the analysis methods. -/

/-- `get_on_time_airlines` missing-airport message (line 188). -/
def onTimeNeedAirportsMsg : String :=
  "🏃‍♂️ I need both departure and arrival airports to find the best airlines for you!"

/-- `get_on_time_airlines` invalid-year message (line 191). -/
def invalidYearMsg : String :=
  "📅 That year seems a bit unusual! Could you try a year between 1990 and 2030?"

/-- `get_on_time_airlines` invalid-limit message (line 194). -/
def invalidLimitMsg : String :=
  "📊 I can show you between 1 and 50 airlines. How about picking a number in that range?"

/-- `get_day_of_week_delays` missing-airport message (line 309). -/
def dayNeedAirportsMsg : String :=
  "🏃‍♂️ I need both departure and arrival airports to analyze delays by day!"

/-- `get_day_of_week_delays` invalid-year message (line 312). -/
def dayInvalidYearMsg : String :=
  "📅 That year seems outside my range! Could you try a year between 1990 and 2030?"

/-- `year is not None and (year < 1990 or year > 2030)`. -/
def yearOutOfRange : Option Int → Bool
  | some y => decide (y < 1990) || decide (y > 2030)
  | none => false

/-- `FlightAnalyticsAgent.get_on_time_airlines` (lines 171-292): the pure
validation prefix, with the BigQuery execution and result formatting
abstracted as the `bq` parameter (the text produced by a successful
warehouse call; the method's own `except` clauses turn every provider
exception into a returned string, so the method never raises). -/
def getOnTimeAirlines (origin destination : String) (year : Option Int)
    (limit : Int) (bq : String) : String :=
  if origin = "" || destination = "" then onTimeNeedAirportsMsg
  else if yearOutOfRange year then invalidYearMsg
  else if decide (limit < 1) || decide (limit > 50) then invalidLimitMsg
  else bq

/-- `FlightAnalyticsAgent.get_day_of_week_delays` (lines 294-414): the pure
validation prefix, with BigQuery execution abstracted as `bq`. -/
def getDayOfWeekDelays (origin destination : String) (year : Option Int)
    (bq : String) : String :=
  if origin = "" || destination = "" then dayNeedAirportsMsg
  else if yearOutOfRange year then dayInvalidYearMsg
  else bq

/-- `str(KeyError('origin'))` interpolated into the generic handler of
line 85. -/
def keyErrOriginMsg : String :=
  "😅 I encountered an error while analyzing your query: \x27origin\x27"

/-- `str(KeyError('destination'))` interpolated into the generic handler of
line 85. -/
def keyErrDestinationMsg : String :=
  "😅 I encountered an error while analyzing your query: \x27destination\x27"

/-- `FlightAnalyticsAgent.analyze_flight_data` (lines 37-85): parse, route
to an analysis method, update memory, catch any exception.  Returns the
response together with the memory after the turn.  A parsed dict lacking
`origin` (or `destination`) raises `KeyError` while the method arguments of
lines 57-76 are evaluated, which the `except` of line 83 converts to the
generic error message before `_update_memory` runs. -/
def analyzeFlightData (mem : Memory) (q : List Char) (bq : String) :
    String × Memory :=
  match parseQuery mem q with
  | ParseResult.failure e => (e, mem)
  | ParseResult.success p =>
    match p.origin, p.destination with
    | none, _ => (keyErrOriginMsg, mem)
    | some _, none => (keyErrDestinationMsg, mem)
    | some o, some d =>
      let result :=
        if p.qtype = "day_of_week_delays" then
          getDayOfWeekDelays o d p.year bq
        else
          getOnTimeAirlines o d p.year (p.limit.getD 10) bq
      (result, updateMemory mem p)

/-- The methods defined by class `FlightAnalyticsAgent` (lines 8-444). -/
def flightAnalyticsAgentMethods : List String :=
  ["__init__", "analyze_flight_data", "_parse_query", "_update_memory",
   "get_on_time_airlines", "get_day_of_week_delays", "test_routing"]

/-- Attribute lookup of `get_cheapest_fares` on a `FlightAnalyticsAgent`
instance: the class defines no such method (see
`flightAnalyticsAgentMethods`), so the call of inquiry_router.py line 101
raises `AttributeError` with this message. -/
def attrErrorMsg : String :=
  "\x27FlightAnalyticsAgent\x27 object has no attribute \x27get_cheapest_fares\x27"

/-- The analytics collaborator wired by main.py lines 60-68: a
`FlightAnalyticsAgent` instance, on which every `get_cheapest_fares` call
raises `AttributeError`. -/
def getCheapestFaresMissing : String → String → Int → Int → Except String String :=
  fun _ _ _ _ => Except.error attrErrorMsg

/-! Accessors for stating properties of `ParseResult`. -/

/-- Origin of a parse result, when parsing succeeded and set one. -/
def resOrigin : ParseResult → Option String
  | ParseResult.failure _ => none
  | ParseResult.success p => p.origin

/-- Destination of a parse result, when parsing succeeded and set one. -/
def resDest : ParseResult → Option String
  | ParseResult.failure _ => none
  | ParseResult.success p => p.destination

/-- Error message of a parse result, when parsing failed. -/
def resError : ParseResult → Option String
  | ParseResult.failure e => some e
  | ParseResult.success _ => none

/-- The possible shapes of a `handle_query` response: one of the fixed
help / availability messages, an error-prefixed provider failure, or the
text returned by a successful provider call. -/
def fixedRouterResponses : List String :=
  [emptyQueryMsg, analyticsUnavailableMsg, analyticsHelpMsg, statusNeedFlightMsg,
   analyticsUnavailableLlmMsg, fareHelpLlmMsg]

/-- Every response of the router is deterministic user-facing text: a fixed
message, a provider failure wrapped in an error prefix, or a provider
success value. -/
def RouterOutcome (cfg : RouterConfig) (r : String) : Prop :=
  r ∈ fixedRouterResponses ∨
  (∃ e, r = "Error retrieving flight status: " ++ e) ∨
  (∃ e, r = "Error retrieving fare analytics: " ++ e) ∨
  (∃ fn s, cfg.statusAgent fn = Except.ok s ∧ r = s) ∨
  (∃ agent o d y l s, cfg.analyticsAgent = some agent ∧
    agent o d y l = Except.ok s ∧ r = s)

/-! ### Helper lemmas -/

/-- `finishParse` only fills in `year` and `limit`; the origin is untouched. -/
theorem resOrigin_finishParse (mem : Memory) (q ql : List Char) (p : ParsedOk) :
    resOrigin (finishParse mem q ql p) = p.origin := rfl

/-- `finishParse` only fills in `year` and `limit`; the destination is
untouched. -/
theorem resDest_finishParse (mem : Memory) (q ql : List Char) (p : ParsedOk) :
    resDest (finishParse mem q ql p) = p.destination := rfl

/-- Outcome analysis for the regex branch of `handle_query`. -/
theorem regexRoute_outcome (cfg : RouterConfig) (q : String) :
    RouterOutcome cfg (regexRoute cfg q) := by
  unfold RouterOutcome regexRoute
  split
  · rename_i fn heq
    split
    · rename_i r hs
      exact Or.inr (Or.inr (Or.inr (Or.inl ⟨fn, r, hs, rfl⟩)))
    · rename_i e hs
      exact Or.inr (Or.inl ⟨e, rfl⟩)
  · split
    · exact Or.inl (by simp [fixedRouterResponses])
    · rename_i agent ha
      split
      · rename_i o d y l hp
        split
        · rename_i r hr
          exact Or.inr (Or.inr (Or.inr (Or.inr ⟨agent, o, d, y, l, r, ha, hr, rfl⟩)))
        · rename_i e hr
          exact Or.inr (Or.inr (Or.inl ⟨e, rfl⟩))
      · exact Or.inl (by simp [fixedRouterResponses])

/-- Outcome analysis for `_route_to_status`. -/
theorem routeToStatus_outcome (cfg : RouterConfig) (q : String) :
    RouterOutcome cfg (routeToStatus cfg q) := by
  unfold RouterOutcome routeToStatus
  split
  · rename_i fn heq
    split
    · rename_i r hs
      exact Or.inr (Or.inr (Or.inr (Or.inl ⟨fn, r, hs, rfl⟩)))
    · rename_i e hs
      exact Or.inr (Or.inl ⟨e, rfl⟩)
  · exact Or.inl (by simp [fixedRouterResponses])

/-- Outcome analysis for `_route_to_analytics`. -/
theorem routeToAnalytics_outcome (cfg : RouterConfig) (q : String) :
    RouterOutcome cfg (routeToAnalytics cfg q) := by
  unfold RouterOutcome routeToAnalytics
  split
  · exact Or.inl (by simp [fixedRouterResponses])
  · rename_i agent ha
    split
    · rename_i o d y l hp
      split
      · rename_i r hr
        exact Or.inr (Or.inr (Or.inr (Or.inr ⟨agent, o, d, y, l, r, ha, hr, rfl⟩)))
      · rename_i e hr
        exact Or.inr (Or.inr (Or.inl ⟨e, rfl⟩))
    · exact Or.inl (by simp [fixedRouterResponses])

/-! ### Claim theorems -/

/-- C1: whenever `handle_query` routes a query to the analytics path with a
`FlightAnalyticsAgent` instance configured (the wiring of main.py), the
dispatch calls `get_cheapest_fares`, which the class does not define, so the
`AttributeError` is caught and the turn returns the
`Error retrieving fare analytics: ...` string; the agent's own entry point,
memory and analysis methods never run. -/
theorem c1_router_calls_missing_method (status : String → Except String String)
    (q : String) (o d : String) (y l : Int)
    (h0 : ¬(String.mk (stripL q.data) = ""))
    (h1 : findFlightNumber (stripL q.data) = none)
    (h2 : parseAnalyticsQuery (stripL q.data) = some (o, d, y, l)) :
    "get_cheapest_fares" ∉ flightAnalyticsAgentMethods ∧
    handleQuery ⟨false, none, status, some getCheapestFaresMissing⟩ q
      = "Error retrieving fare analytics: " ++ attrErrorMsg := by
  refine ⟨by decide, ?_⟩
  unfold handleQuery regexRoute
  simp only [h0, if_false, h1, h2, getCheapestFaresMissing]

/-- Witness for C1 at a concrete fare query. -/
theorem c1_witness :
    "get_cheapest_fares" ∉ flightAnalyticsAgentMethods ∧
    handleQuery ⟨false, none, (fun _ => Except.ok ""), some getCheapestFaresMissing⟩
        "cheapest fares from SFO to JFK in 2023"
      = "Error retrieving fare analytics: " ++ attrErrorMsg :=
  c1_router_calls_missing_method (fun _ => Except.ok "") _ "SFO" "JFK" 2023 5
    (by decide) (by decide) (by decide)

/-- C2 counterexample: the claim says `"SFO to JFK"` (no year token)
resolves to a FareAnalysis request with the year unset; in the code
`_parse_analytics_query` requires a year, so resolution fails. -/
theorem c2_counterexample : parseAnalyticsQuery "SFO to JFK".data = none := by
  decide

/-- C2 amended: a raw query with no year token always fails the router's
analytics resolution (a year is required); with a year token present, a
query holding at least two airport codes resolves with the first two codes
as origin/destination and the limit defaulted to 5. -/
theorem c2_year_required :
    (∀ q : List Char, (wordToks q).find? isRouterYearTok = none →
      parseAnalyticsQuery q = none) ∧
    parseAnalyticsQuery "SFO to JFK in 2023".data = some ("SFO", "JFK", 2023, 5) := by
  refine ⟨?_, by decide⟩
  intro q h
  unfold parseAnalyticsQuery
  simp only [h, Option.map_none']
  cases (wordToks (upperL q)).filter isAirportTok with
  | nil => cases routeFromTo (segment (upperL q)) <;> rfl
  | cons a t =>
    cases t with
    | nil => cases routeFromTo (segment (upperL q)) <;> rfl
    | cons b r => cases routeFromTo (segment (upperL q)) <;> rfl

/-- Witness for C2 at a concrete year-free query. -/
theorem c2_witness : parseAnalyticsQuery "LAX to ORD".data = none :=
  c2_year_required.1 ("LAX to ORD").data (by decide)

/-- C3 counterexample: two same-intent turns through the analytics agent;
the second turn omits the year, and the write clears it instead of
preserving it. -/
theorem c3_counterexample :
    ((analyzeFlightData emptyMemory
        "on time airlines from SFO to JFK in 2023".data "RESULT").2
      = ⟨some "on_time_airlines", some "SFO", some "JFK", some 2023, none⟩) ∧
    ((analyzeFlightData
        ⟨some "on_time_airlines", some "SFO", some "JFK", some 2023, none⟩
        "from SFO to JFK".data "RESULT").2
      = ⟨some "on_time_airlines", some "SFO", some "JFK", none, none⟩) := by
  decide

/-- C3 amended: `_update_memory` replaces every memory field by the incoming
dict's value unconditionally — absent fields are cleared even when the
incoming intent equals the prior one, and the prior memory is never
consulted; carry-forward happens only earlier, when `_parse_query` copies
memory's year/limit into the dict for `what about` / `how about` queries. -/
theorem c3_memory_write_is_full_overwrite (m : Memory) (p : ParsedOk) :
    updateMemory m p
      = ⟨some p.qtype, p.origin, p.destination, p.year, p.limit⟩ := rfl

/-- C4 counterexample: with memory SFO→JFK, the single-code continuation
`"what about LAX"` makes LAX the *origin* (keeping memory's destination),
not the destination as the claim states. -/
theorem c4_counterexample :
    (resOrigin (parseQuery
        ⟨some "on_time_airlines", some "SFO", some "JFK", some 2023, some 5⟩
        "what about LAX".data) = some "LAX") ∧
    (resDest (parseQuery
        ⟨some "on_time_airlines", some "SFO", some "JFK", some 2023, some 5⟩
        "what about LAX".data) = some "JFK") ∧
    ¬((resOrigin (parseQuery
        ⟨some "on_time_airlines", some "SFO", some "JFK", some 2023, some 5⟩
        "what about LAX".data) = some "SFO") ∧
      (resDest (parseQuery
        ⟨some "on_time_airlines", some "SFO", some "JFK", some 2023, some 5⟩
        "what about LAX".data) = some "LAX")) := by
  decide

/-- C4 amended: for a single-candidate continuation query with both memory
values present, a code matching neither memory value becomes the new
*origin* with memory's destination kept, and a code matching either memory
value yields memory's origin together with the new code as destination. -/
theorem c4_single_code_continuation (mem : Memory) (q : List Char)
    (c o d : String)
    (h1 : agentAirportCodes q = [c])
    (h2 : whatHowAbout (lowerL q) = true)
    (h3 : mem.lastOrigin = some o) (h4 : ¬(o = ""))
    (h5 : mem.lastDestination = some d) (h6 : ¬(d = "")) :
    ((¬(c = o) ∧ ¬(c = d)) →
      resOrigin (parseQuery mem q) = some c ∧
      resDest (parseQuery mem q) = some d) ∧
    ((c = o ∨ c = d) →
      resOrigin (parseQuery mem q) = some o ∧
      resDest (parseQuery mem q) = some c) := by
  constructor
  · rintro ⟨hc1, hc2⟩
    simp [parseQuery, h1, h2, h3, h4, h5, h6, hc1, hc2,
      resOrigin_finishParse, resDest_finishParse]
  · intro hc
    have hcc : ¬(¬(c = o) ∧ ¬(c = d)) := by tauto
    simp [parseQuery, h1, h2, h3, h4, h5, h6, hcc,
      resOrigin_finishParse, resDest_finishParse]

/-- Witness for C4 with memory SFO→JFK and the fresh code EWR. -/
theorem c4_witness :
    resOrigin (parseQuery
        ⟨some "on_time_airlines", some "SFO", some "JFK", some 2023, some 5⟩
        "what about EWR".data) = some "EWR" ∧
    resDest (parseQuery
        ⟨some "on_time_airlines", some "SFO", some "JFK", some 2023, some 5⟩
        "what about EWR".data) = some "JFK" :=
  (c4_single_code_continuation
    ⟨some "on_time_airlines", some "SFO", some "JFK", some 2023, some 5⟩
    "what about EWR".data "EWR" "SFO" "JFK"
    (by decide) (by decide) rfl (by decide) rfl (by decide)).1
    ⟨by decide, by decide⟩

/-- C5: memory is written exactly once per routed turn — the state after
`analyze_flight_data` is `updateMemory` of the parsed dict, for every
provider outcome `bq` — while a turn whose resolution fails leaves memory
unchanged; concretely, a first turn failing with the missing-route error
leaves memory empty and a subsequent continuation query fails with the same
error. -/
theorem c5_memory_update_discipline :
    (∀ (mem : Memory) (q : List Char) (bq e : String),
      parseQuery mem q = ParseResult.failure e →
      analyzeFlightData mem q bq = (e, mem)) ∧
    (∀ (mem : Memory) (q : List Char) (bq : String) (p : ParsedOk)
      (o d : String),
      parseQuery mem q = ParseResult.success p → p.origin = some o →
      p.destination = some d →
      (analyzeFlightData mem q bq).2 = updateMemory mem p) ∧
    analyzeFlightData emptyMemory "cheapest fares".data "RESULT"
      = (needAirportsErr, emptyMemory) ∧
    analyzeFlightData emptyMemory "what about the fares".data "RESULT"
      = (needAirportsErr, emptyMemory) := by
  refine ⟨?_, ?_, by decide, by decide⟩
  · intro mem q bq e h
    simp [analyzeFlightData, h]
  · intro mem q bq p o d h h1 h2
    simp [analyzeFlightData, h, h1, h2]

/-- Witness for C5 at a concrete failing turn. -/
theorem c5_witness :
    analyzeFlightData emptyMemory "delays from nowhere".data "RESULT"
      = (needAirportsErr, emptyMemory) :=
  c5_memory_update_discipline.1 emptyMemory ("delays from nowhere").data
    "RESULT" needAirportsErr (by decide)

/-- C6: `handle_query` is total — for every collaborator behaviour and every
input it returns a string that is a fixed message, an error-prefixed
provider-failure text, or a provider success value; classifier failures
never escape (`classifyWithLlm` absorbs them into the regex fallback). -/
theorem c6_handle_query_never_raises (cfg : RouterConfig) (query : String) :
    RouterOutcome cfg (handleQuery cfg query) := by
  unfold handleQuery
  by_cases h : String.mk (stripL query.data) = ""
  · simp only [h, if_true]
    exact Or.inl (by simp [fixedRouterResponses])
  · simp only [h, if_false]
    split
    · exact routeToStatus_outcome cfg _
    · exact routeToAnalytics_outcome cfg _
    · exact regexRoute_outcome cfg _

/-- C7: boundary validation of a resolved analytics request in
`get_on_time_airlines` — year 1989 is rejected with the invalid-year
message, years 1990 and 2030 proceed to the query; limits 0 and 51 are
rejected with the invalid-limit message, limits 1 and 50 proceed. -/
theorem c7_boundary_validation (o d bq : String)
    (ho : ¬(o = "")) (hd : ¬(d = "")) :
    getOnTimeAirlines o d (some 1989) 10 bq = invalidYearMsg ∧
    getOnTimeAirlines o d (some 1990) 10 bq = bq ∧
    getOnTimeAirlines o d (some 2030) 10 bq = bq ∧
    getOnTimeAirlines o d none 0 bq = invalidLimitMsg ∧
    getOnTimeAirlines o d none 51 bq = invalidLimitMsg ∧
    getOnTimeAirlines o d none 1 bq = bq ∧
    getOnTimeAirlines o d none 50 bq = bq := by
  unfold getOnTimeAirlines yearOutOfRange
  simp [ho, hd]

/-- Witness for C7 on the SFO→JFK route. -/
theorem c7_witness :
    getOnTimeAirlines "SFO" "JFK" (some 1989) 10 "R" = invalidYearMsg ∧
    getOnTimeAirlines "SFO" "JFK" (some 1990) 10 "R" = "R" ∧
    getOnTimeAirlines "SFO" "JFK" (some 2030) 10 "R" = "R" ∧
    getOnTimeAirlines "SFO" "JFK" none 0 "R" = invalidLimitMsg ∧
    getOnTimeAirlines "SFO" "JFK" none 51 "R" = invalidLimitMsg ∧
    getOnTimeAirlines "SFO" "JFK" none 1 "R" = "R" ∧
    getOnTimeAirlines "SFO" "JFK" none 50 "R" = "R" :=
  c7_boundary_validation "SFO" "JFK" "R" (by decide) (by decide)

/-- C8 counterexample: the claim says flight-number detection accepts 2–3
leading letters; the pattern `\b[A-Z]{2}\d{2,4}\b` accepts exactly two, so
the three-letter token UAL123 is not detected. -/
theorem c8_counterexample : findFlightNumber "UAL123".data = none := by decide

/-- C8 amended: flight-number detection matches a whole token of exactly
*two* uppercase letters followed by 2–4 digits, case-insensitively via
uppercasing, and the first match in the query wins. -/
theorem c8_two_letter_flight_numbers :
    (∀ (q : List Char) (t : String), findFlightNumber q = some t →
      ∃ tok, tok ∈ wordToks (upperL q) ∧ isFlightTok tok = true ∧
        t = String.mk tok) ∧
    findFlightNumber "aa123".data = some "AA123" ∧
    findFlightNumber "ABC123".data = none ∧
    findFlightNumber "UA1".data = none ∧
    findFlightNumber "UA12345".data = none ∧
    findFlightNumber "status of aa123 and ba4567".data = some "AA123" := by
  refine ⟨?_, by decide, by decide, by decide, by decide, by decide⟩
  intro q t h
  unfold findFlightNumber at h
  cases hf : (wordToks (upperL q)).find? isFlightTok with
  | none => rw [hf] at h; simp at h
  | some tok =>
    rw [hf] at h
    simp only [Option.map_some', Option.some.injEq] at h
    exact ⟨tok, List.mem_of_find?_eq_some hf, List.find?_some hf, h.symm⟩

/-- Witness for C8's characterisation at a lowercase input. -/
theorem c8_witness :
    ∃ tok, tok ∈ wordToks (upperL "aa123".data) ∧ isFlightTok tok = true ∧
      ("AA123" : String) = String.mk tok :=
  c8_two_letter_flight_numbers.1 ("aa123").data "AA123" (by decide)

/-- C9 counterexample: the router's `_parse_analytics_query` applies no
stoplist, so in `"THE SFO JFK 2023"` the stoplist word THE becomes the
origin and SFO the destination — not SFO/JFK as the claim requires. -/
theorem c9_counterexample :
    parseAnalyticsQuery "THE SFO JFK 2023".data = some ("THE", "SFO", 2023, 5) ∧
    ("THE").data ∈ commonWords := by decide

/-- C9 amended: the analytics *agent's* extraction excludes the stoplist
(`"THE SFO JFK"` yields exactly SFO, JFK) and whenever it finds at least two
candidates the first two become origin and destination; the router's
extraction lacks the stoplist. -/
theorem c9_agent_stoplist_and_order :
    agentAirportCodes "THE SFO JFK".data = ["SFO", "JFK"] ∧
    ∀ (mem : Memory) (q : List Char) (a b : String) (rest : List String),
      agentAirportCodes q = a :: b :: rest →
      resOrigin (parseQuery mem q) = some a ∧
      resDest (parseQuery mem q) = some b := by
  refine ⟨by decide, ?_⟩
  intro mem q a b rest h
  simp [parseQuery, h, resOrigin_finishParse, resDest_finishParse]

/-- Witness for C9 at a fare query containing a stoplist word. -/
theorem c9_witness :
    resOrigin (parseQuery emptyMemory "fares THE SFO JFK".data) = some "SFO" ∧
    resDest (parseQuery emptyMemory "fares THE SFO JFK".data) = some "JFK" :=
  c9_agent_stoplist_and_order.2 emptyMemory ("fares THE SFO JFK").data
    "SFO" "JFK" [] (by decide)

/-- C10: a single-candidate continuation query on empty memory slips through
the memoryless branch of `_parse_query` without setting an origin, so
`analyze_flight_data` raises `KeyError('origin')` and answers with the
generic exception message instead of the missing-route error a cold query
gets; the zero-candidate continuation does fail like a cold query.  Memory
stays unchanged in each case. -/
theorem c10_continuation_without_memory :
    analyzeFlightData emptyMemory "what about SFO".data "RESULT"
      = (keyErrOriginMsg, emptyMemory) ∧
    analyzeFlightData emptyMemory "SFO".data "RESULT"
      = (needBothAirportsErr, emptyMemory) ∧
    analyzeFlightData emptyMemory "what about the route".data "RESULT"
      = (needAirportsErr, emptyMemory) ∧
    analyzeFlightData emptyMemory "tell me about delays".data "RESULT"
      = (needAirportsErr, emptyMemory) ∧
    ¬(keyErrOriginMsg = needBothAirportsErr) := by
  decide

end SkyRoute
